import Mathlib

/-!
Verification of the webhook chatbot (`src/chatbot.ts`).

This file shallowly embeds the pieces of the program that carry design
content: the zod input schemas (`EventFilters`, `CreateWebhookInput`), the
`createWebhook` tool (network-id lookup, per-event-type payload
construction, try/catch error rendering), and the two session drivers
(`runChatMode`, `runAutonomousMode`) together with their shared
chunk-rendering loop. JavaScript objects whose exact key set matters are
modelled as association lists in insertion order; thrown `Error` values are
modelled by `JsError`; `process.env.NETWORK_ID` is an `Option String`
parameter; the external `Webhook.create` call is a function parameter that
may fail.
-/

/-- Truthiness of an optional JavaScript string value: `undefined` and the
empty string are falsy, every other string is truthy. -/
def strTruthy : Option String → Bool
  | none => false
  | some s => s != ""

/-- JavaScript `toLowerCase` on the inputs this program compares (ASCII
command words): lower-case every character of the string. -/
def jsToLowerCase (s : String) : String := ⟨s.data.map Char.toLower⟩

/-- A thrown JavaScript `Error` value. Its string interpolation
(as in the template literal used by the catch branch) is
`"Error: " ++ message`. -/
structure JsError where
  message : String
deriving DecidableEq, Repr

/-- String interpolation of an `Error` value, as `${error}` produces it. -/
def JsError.render (e : JsError) : String := "Error: " ++ e.message

/-- The parsed `EventFilters` zod object. Each recognized field is `none`
when the key is absent from the object and `some v` when the key is present
with value `v`. zod strips unrecognized keys before `.refine` runs, so no
other keys can occur. -/
structure EventFiltersData where
  addresses : Option (List String)
  from_address : Option String
  to_address : Option String
  contract_address : Option String
deriving DecidableEq, Repr

/-- Number of recognized keys present on the parsed filter object; this is
what `Object.keys(data).length` computes inside the `.refine` callback. -/
def EventFiltersData.presentKeyCount (d : EventFiltersData) : Nat :=
  (if d.addresses.isSome then 1 else 0) + (if d.from_address.isSome then 1 else 0)
    + (if d.to_address.isSome then 1 else 0) + (if d.contract_address.isSome then 1 else 0)

/-- Whether some recognized field is populated, i.e. truthy in the sense the
builder's spreads use: a present array is always truthy (even empty), a
string field must be present and non-empty. -/
def EventFiltersData.populatedAny (d : EventFiltersData) : Bool :=
  d.addresses.isSome || strTruthy d.from_address || strTruthy d.to_address
    || strTruthy d.contract_address

/-- The `EventFilters` schema's `.refine` validation: succeed exactly when at
least one recognized key is present on the object, otherwise fail with the
configured message. -/
def EventFilters_parse (d : EventFiltersData) : Except JsError EventFiltersData :=
  if d.presentKeyCount > 0 then Except.ok d
  else Except.error ⟨"At least one filter must be provided"⟩

/-- The four members of the `WebhookEventType` zod enum. -/
def WebhookEventType_values : List String :=
  ["wallet_activity", "smart_contract_event_activity", "erc20_transfer", "erc721_transfer"]

/-- The argument record of the `create_webhook` tool after parsing:
`notificationUri`, the event type, the `eventTypeFilter.addresses` list, and
the optional `eventFilters` object. -/
structure CreateWebhookArgs where
  notificationUri : String
  eventType : String
  eventTypeFilterAddresses : List String
  eventFilters : Option EventFiltersData
deriving DecidableEq, Repr

/-- The `CreateWebhookInput` zod schema: the event type must be one of the
enum values, and `eventFilters` is optional — when absent it is not
validated at all, when present it must pass `EventFilters_parse`. (The
`.url()` format check on `notificationUri` is a zod-internal regex and is
not modelled; no claim depends on it.) -/
def CreateWebhookInput_parse (raw : CreateWebhookArgs) : Except JsError CreateWebhookArgs :=
  if raw.eventType ∈ WebhookEventType_values then
    match raw.eventFilters with
    | none => Except.ok raw
    | some d =>
      match EventFilters_parse d with
      | Except.ok _ => Except.ok raw
      | Except.error e => Except.error e
  else Except.error ⟨"Invalid enum value"⟩

/-- One conditional object spread `...(o ? \x7b key: o \x7d : \x7b\x7d)`:
contributes the pair exactly when the optional string is truthy. -/
def spreadStr (key : String) (o : Option String) : List (String × String) :=
  match o with
  | none => []
  | some s => if s = "" then [] else [(key, s)]

/-- The transfer-filter object built for `erc20_transfer` /
`erc721_transfer`: the three conditional spreads in source order
(`contract_address`, `from_address`, `to_address`), each guarded by the
truthiness of `eventFilters?.<field>`. -/
def buildTransferFilter (ef : Option EventFiltersData) : List (String × String) :=
  spreadStr "contract_address" (ef.bind EventFiltersData.contract_address)
    ++ spreadStr "from_address" (ef.bind EventFiltersData.from_address)
    ++ spreadStr "to_address" (ef.bind EventFiltersData.to_address)

/-- A JavaScript value stored under a key of the `eventTypeFilter` object:
either a string or an array of address strings. -/
inductive JsVal where
  | str : String → JsVal
  | arr : List String → JsVal
deriving DecidableEq, Repr

/-- The `webhookOptions` object assembled by `createWebhook` before the
provider call. `eventTypeFilter` and `eventFilters` are `none` when the
switch branch taken never assigns the key. -/
structure WebhookOptions where
  networkId : String
  notificationUri : String
  eventType : String
  eventTypeFilter : Option (List (String × JsVal))
  eventFilters : Option (List (List (String × String)))
deriving DecidableEq, Repr

/-- The `switch (eventType)` of `createWebhook`: build the provider payload
for the given event type, or throw for an event type outside the closed
enumeration. (`eventTypeFilter.addresses || []` in the source is the
identity here because a JavaScript array — even an empty one — is truthy
and the field's type guarantees an array.) -/
def buildWebhookOptions (networkId notificationUri eventType : String)
    (eventTypeFilterAddresses : List String) (eventFilters : Option EventFiltersData) :
    Except JsError WebhookOptions :=
  if eventType = "wallet_activity" then
    Except.ok ⟨networkId, notificationUri, eventType,
      some [("addresses", JsVal.arr eventTypeFilterAddresses), ("wallet_id", JsVal.str "")],
      none⟩
  else if eventType = "smart_contract_event_activity" then
    Except.ok ⟨networkId, notificationUri, eventType,
      some [("contract_addresses", JsVal.arr eventTypeFilterAddresses)], none⟩
  else if eventType = "erc20_transfer" then
    Except.ok ⟨networkId, notificationUri, eventType, none, some [buildTransferFilter eventFilters]⟩
  else if eventType = "erc721_transfer" then
    Except.ok ⟨networkId, notificationUri, eventType, none, some [buildTransferFilter eventFilters]⟩
  else Except.error ⟨"Unsupported event type: " ++ eventType⟩

/-- The body of `createWebhook`'s try block: read `process.env.NETWORK_ID`
(the `networkId` parameter) and throw when it is falsy, build the payload,
submit it through the provider (`Webhook.create`, the `provider` parameter),
and on success return the confirmation string embedding the provider's
string rendering of the created webhook. -/
def createWebhookTry (networkId : Option String)
    (provider : WebhookOptions → Except JsError String) (args : CreateWebhookArgs) :
    Except JsError String :=
  if strTruthy networkId then
    match buildWebhookOptions (networkId.getD "") args.notificationUri args.eventType
        args.eventTypeFilterAddresses args.eventFilters with
    | Except.error e => Except.error e
    | Except.ok opts =>
      match provider opts with
      | Except.error e => Except.error e
      | Except.ok w => Except.ok ("The webhook was successfully created: " ++ w ++ "\n\n")
  else Except.error ⟨"Network ID is not configured in environment variables"⟩

/-- The `createWebhook` tool function: run the try block; any thrown error
is caught and rendered as the string `Error: ${error}`. The function always
returns a string. -/
def createWebhook (networkId : Option String)
    (provider : WebhookOptions → Except JsError String) (args : CreateWebhookArgs) : String :=
  match createWebhookTry networkId provider args with
  | Except.ok s => s
  | Except.error e => "Error: " ++ JsError.render e

/-- The network id `initializeAgent` puts into the agentkit config:
`process.env.NETWORK_ID || "base-sepolia"` — the named test network is the
default whenever the variable is absent or empty. -/
def agentConfigNetworkId (env : Option String) : String :=
  if strTruthy env then env.getD "" else "base-sepolia"

/-- One response chunk of a turn's stream, tagged by origin exactly as the
drivers test for it (`"agent" in chunk` / `"tools" in chunk`). -/
inductive Chunk where
  | agent : String → Chunk
  | tools : String → Chunk
deriving DecidableEq, Repr

/-- The textual content printed for a chunk (`chunk.agent.messages[0].content`
or `chunk.tools.messages[0].content`). -/
def Chunk.content : Chunk → String
  | Chunk.agent c => c
  | Chunk.tools c => c

/-- The separator line both drivers print. -/
def separator : String := "-------------------"

/-- The body of the `for await (const chunk of stream)` loop shared by both
drivers: for each chunk, print its content and then print the separator
(the separator `console.log` sits inside the loop, after the if/else). The
result is the list of printed lines for one turn. -/
def consumeStream : List Chunk → List String
  | [] => []
  | c :: rest => c.content :: separator :: consumeStream rest

/-- The message wrapper sent to `agent.stream` (a langchain `HumanMessage`
around the raw text). -/
structure HumanMessage where
  content : String
deriving DecidableEq, Repr

/-- Observable outcome of a chat-mode session: the messages sent to the
agent runtime, the lines printed, and `some code` when `process.exit(code)`
was reached. -/
structure ChatResult where
  sent : List HumanMessage
  outputs : List String
  exitCode : Option Nat
deriving DecidableEq, Repr

/-- `runChatMode` over the finite list of lines the user types, with the
agent runtime modelled as a function from the sent message to either the
turn's chunk list or a stream error. A line equal to `"exit"` after
lowercasing breaks the loop without contacting the agent; any other line is
wrapped as a `HumanMessage` and streamed for one turn; an error thrown
while consuming the stream is logged and reaches `process.exit(1)`. -/
def runChatMode (f : HumanMessage → Except JsError (List Chunk)) :
    List String → ChatResult
  | [] => ⟨[], [], none⟩
  | line :: rest =>
    if jsToLowerCase line = "exit" then ⟨[], [], none⟩
    else
      match f ⟨line⟩ with
      | Except.error e => ⟨[⟨line⟩], ["Error: " ++ e.message], some 1⟩
      | Except.ok chunks =>
        let r := runChatMode f rest
        ⟨⟨line⟩ :: r.sent, consumeStream chunks ++ r.outputs, r.exitCode⟩

/-- Observable outcome of an autonomous-mode run: printed lines, exit code
(when `process.exit(1)` was reached), and the number of turns whose stream
was started. -/
structure AutoResult where
  outputs : List String
  exitCode : Option Nat
  turns : Nat
deriving DecidableEq, Repr

/-- `runAutonomousMode` over the finite list of successive outcomes of
streaming the fixed creative-action thought (the loop itself is unbounded;
the list is the portion of the run under observation). A turn whose stream
errors is caught inside the loop body and reaches `process.exit(1)`; a
successful turn prints its chunks (then sleeps) and the loop continues. -/
def runAutonomousMode : List (Except JsError (List Chunk)) → AutoResult
  | [] => ⟨[], none, 0⟩
  | Except.error e :: _ => ⟨["Error: " ++ e.message], some 1, 1⟩
  | Except.ok chunks :: rest =>
    let r := runAutonomousMode rest
    ⟨consumeStream chunks ++ r.outputs, r.exitCode, r.turns + 1⟩

/-- Membership in a single conditional spread: the pair appears exactly when
the key matches and the optional value is present and non-empty. -/
theorem mem_spreadStr (key : String) (o : Option String) (k v : String) :
    (k, v) ∈ spreadStr key o ↔ k = key ∧ o = some v ∧ v ≠ "" := by
  cases o with
  | none => simp [spreadStr]
  | some s =>
    by_cases hs : s = ""
    · subst hs
      constructor
      · intro h
        simp [spreadStr] at h
      · rintro ⟨-, h, hne⟩
        exact absurd (Option.some.inj h).symm hne
    · simp only [spreadStr, if_neg hs, List.mem_singleton, Prod.mk.injEq, Option.some.injEq]
      constructor
      · rintro ⟨rfl, rfl⟩
        exact ⟨rfl, rfl, hs⟩
      · rintro ⟨rfl, rfl, -⟩
        exact ⟨rfl, rfl⟩

/-- C1: for `erc20_transfer` / `erc721_transfer` the built `eventFilters`
payload is a single-element list whose one object contains exactly the
populated transfer-filter fields with their input values — a key appears in
it iff the corresponding field is present and non-empty — and for a filter
with only `contract_address` populated the object is exactly that one
key-value pair. -/
theorem transfer_eventFilters_sparse (ef : EventFiltersData) (c : String)
    (hf : ef.from_address = none) (ht : ef.to_address = none)
    (hc : ef.contract_address = some c) (hne : c ≠ "") :
    (∀ (ef' : Option EventFiltersData) (k v : String),
        ((k, v) ∈ buildTransferFilter ef' ↔
          (k = "contract_address" ∧ ef'.bind EventFiltersData.contract_address = some v ∧ v ≠ "")
          ∨ (k = "from_address" ∧ ef'.bind EventFiltersData.from_address = some v ∧ v ≠ "")
          ∨ (k = "to_address" ∧ ef'.bind EventFiltersData.to_address = some v ∧ v ≠ "")))
    ∧ buildTransferFilter (some ef) = [("contract_address", c)]
    ∧ (∀ (nid uri : String) (addrs : List String) (ef' : Option EventFiltersData),
        buildWebhookOptions nid uri "erc20_transfer" addrs ef' =
          Except.ok ⟨nid, uri, "erc20_transfer", none, some [buildTransferFilter ef']⟩
        ∧ buildWebhookOptions nid uri "erc721_transfer" addrs ef' =
          Except.ok ⟨nid, uri, "erc721_transfer", none, some [buildTransferFilter ef']⟩) := by
  refine ⟨?_, ?_, ?_⟩
  · intro ef' k v
    simp [buildTransferFilter, mem_spreadStr]
  · simp [buildTransferFilter, spreadStr, hf, ht, hc, hne]
  · intro nid uri addrs ef'
    exact ⟨rfl, rfl⟩

/-- Witness for C1 at a concrete input: only `contract_address` populated. -/
theorem transfer_eventFilters_sparse_witness :
    buildTransferFilter (some ⟨none, none, none, some "0xC0FFEE"⟩)
      = [("contract_address", "0xC0FFEE")] :=
  (transfer_eventFilters_sparse ⟨none, none, none, some "0xC0FFEE"⟩ "0xC0FFEE"
    rfl rfl rfl (by decide)).2.1

/-- C2 counterexample: the raw filter object whose only key is
`contract_address` holding the empty string has zero populated fields, yet
the `EventFilters` validation accepts it (the `.refine` counts present keys,
not populated values), the full input schema accepts it, and it reaches the
builder, which then emits an empty filter object. -/
theorem zeroPopulated_passes_validation :
    EventFiltersData.populatedAny ⟨none, none, none, some ""⟩ = false
    ∧ EventFilters_parse ⟨none, none, none, some ""⟩
        = Except.ok ⟨none, none, none, some ""⟩
    ∧ CreateWebhookInput_parse
        ⟨"https://example.com/hook", "erc20_transfer", [], some ⟨none, none, none, some ""⟩⟩
      = Except.ok
          ⟨"https://example.com/hook", "erc20_transfer", [], some ⟨none, none, none, some ""⟩⟩
    ∧ buildTransferFilter (some ⟨none, none, none, some ""⟩) = [] := by
  refine ⟨rfl, rfl, rfl, rfl⟩

/-- C2 (amended): the `EventFilters` validation fails — with the
`ValidationError` message — exactly when zero of the recognized fields are
present as keys on the object; key presence, not populatedness, is what is
checked, so a filter whose only present key holds an empty string passes
validation and reaches the builder. -/
theorem eventFilters_validation_checks_presence (d : EventFiltersData) :
    EventFilters_parse d = Except.error ⟨"At least one filter must be provided"⟩
      ↔ d.addresses = none ∧ d.from_address = none ∧ d.to_address = none
          ∧ d.contract_address = none := by
  obtain ⟨a, f, t, c⟩ := d
  cases a <;> cases f <;> cases t <;> cases c <;>
    simp [EventFilters_parse, EventFiltersData.presentKeyCount]

/-- C3: the `wallet_activity` payload carries the input address list
unchanged plus a `wallet_id` key set to the empty string, while the
`smart_contract_event_activity` payload carries the same list under the key
`contract_addresses` and has no `wallet_id` key. -/
theorem addressPayload_shapes (nid uri : String) (addrs : List String)
    (ef : Option EventFiltersData) :
    buildWebhookOptions nid uri "wallet_activity" addrs ef =
      Except.ok ⟨nid, uri, "wallet_activity",
        some [("addresses", JsVal.arr addrs), ("wallet_id", JsVal.str "")], none⟩
    ∧ buildWebhookOptions nid uri "smart_contract_event_activity" addrs ef =
      Except.ok ⟨nid, uri, "smart_contract_event_activity",
        some [("contract_addresses", JsVal.arr addrs)], none⟩
    ∧ List.lookup "wallet_id" [("addresses", JsVal.arr addrs), ("wallet_id", JsVal.str "")]
        = some (JsVal.str "")
    ∧ List.lookup "wallet_id" [("contract_addresses", JsVal.arr addrs)] = none := by
  refine ⟨rfl, rfl, rfl, rfl⟩

/-- Every successful result of the try block is the confirmation string. -/
theorem createWebhookTry_ok_shape (nid : Option String)
    (provider : WebhookOptions → Except JsError String) (args : CreateWebhookArgs)
    (s : String) (h : createWebhookTry nid provider args = Except.ok s) :
    ∃ w, s = "The webhook was successfully created: " ++ w ++ "\n\n" := by
  unfold createWebhookTry at h
  split at h
  · split at h
    · exact absurd h (by simp)
    · split at h
      · exact absurd h (by simp)
      · exact ⟨_, (Except.ok.inj h).symm⟩
  · exact absurd h (by simp)

/-- C4: `createWebhook` is total over every environment, provider outcome
and argument record — it returns either the success confirmation string or
an error-describing string built by the catch branch, never propagating an
exception. -/
theorem createWebhook_always_returns_string (nid : Option String)
    (provider : WebhookOptions → Except JsError String) (args : CreateWebhookArgs) :
    (∃ w, createWebhook nid provider args
        = "The webhook was successfully created: " ++ w ++ "\n\n")
    ∨ (∃ m, createWebhook nid provider args = "Error: " ++ ("Error: " ++ m)) := by
  unfold createWebhook
  cases htry : createWebhookTry nid provider args with
  | error e => exact Or.inr ⟨e.message, rfl⟩
  | ok s =>
    obtain ⟨w, hw⟩ := createWebhookTry_ok_shape nid provider args s htry
    exact Or.inl ⟨w, hw⟩

/-- C5 counterexample: in both modes a two-chunk turn prints two separator
lines (one after each chunk), not a single separator after the sequence is
drained; in particular one non-exit chat input here yields two printed
separators. -/
theorem separator_per_turn_cex :
    (runChatMode (fun _ => Except.ok [Chunk.agent "a", Chunk.tools "b"]) ["hi"]).outputs.count
        separator = 2
    ∧ (runAutonomousMode [Except.ok [Chunk.agent "a", Chunk.tools "b"]]).outputs.count
        separator = 2
    ∧ (2 : Nat) ≠ 1 := by
  refine ⟨by decide, by decide, by decide⟩

/-- C5 (amended): a separator is printed after every individual chunk, so a
drained turn of `n` chunks contains exactly `n` separator lines, with no
extra separator appended by the driver after the sequence. -/
theorem separator_after_each_chunk (chunks : List Chunk)
    (h : ∀ c ∈ chunks, Chunk.content c ≠ separator) :
    (consumeStream chunks).count separator = chunks.length := by
  induction chunks with
  | nil => rfl
  | cons c rest ih =>
    have hc : Chunk.content c ≠ separator := h c (by simp)
    have hrest : ∀ x ∈ rest, Chunk.content x ≠ separator := fun x hx => h x (by simp [hx])
    simp [consumeStream, List.count_cons, hc, ih hrest]

/-- Witness for the amended C5 at a concrete two-chunk turn. -/
theorem separator_after_each_chunk_witness :
    (consumeStream [Chunk.agent "a", Chunk.tools "b"]).count separator
      = [Chunk.agent "a", Chunk.tools "b"].length :=
  separator_after_each_chunk [Chunk.agent "a", Chunk.tools "b"] (by decide)

/-- C6: for an event type outside the closed enumeration the builder throws
the error naming the offending value, and `createWebhook` surfaces it to the
caller as the catch branch's error string rather than an exception. -/
theorem unsupported_eventType_named_error (args : CreateWebhookArgs) (nid : String)
    (provider : WebhookOptions → Except JsError String) (hn : nid ≠ "")
    (h : args.eventType ∉ WebhookEventType_values) :
    buildWebhookOptions nid args.notificationUri args.eventType
        args.eventTypeFilterAddresses args.eventFilters
      = Except.error ⟨"Unsupported event type: " ++ args.eventType⟩
    ∧ createWebhook (some nid) provider args
      = "Error: " ++ ("Error: " ++ ("Unsupported event type: " ++ args.eventType)) := by
  simp only [WebhookEventType_values, List.mem_cons, List.not_mem_nil, or_false,
    not_or] at h
  obtain ⟨h1, h2, h3, h4⟩ := h
  have hb : buildWebhookOptions nid args.notificationUri args.eventType
      args.eventTypeFilterAddresses args.eventFilters
      = Except.error ⟨"Unsupported event type: " ++ args.eventType⟩ := by
    simp [buildWebhookOptions, h1, h2, h3, h4]
  have ht : strTruthy (some nid) = true := by simp [strTruthy, hn]
  refine ⟨hb, ?_⟩
  simp [createWebhook, createWebhookTry, ht, hb, JsError.render]

/-- Witness for C6 at the concrete unsupported event type `"eth_block"`. -/
theorem unsupported_eventType_named_error_witness :
    createWebhook (some "base-sepolia") (fun _ => Except.ok "w")
        ⟨"https://example.com/hook", "eth_block", [], none⟩
      = "Error: " ++ ("Error: " ++ ("Unsupported event type: " ++ "eth_block")) :=
  (unsupported_eventType_named_error ⟨"https://example.com/hook", "eth_block", [], none⟩
    "base-sepolia" (fun _ => Except.ok "w") (by decide) (by decide)).2

/-- C7: the submitter takes its network id from the environment only (the
request record has no network field); a missing or empty `NETWORK_ID` makes
`createWebhook` fail with the configuration error string instead of falling
back to the `base-sepolia` default that `initializeAgent` applies, and a
configured value is the one the provider receives in the payload. -/
theorem networkId_from_config_only (provider : WebhookOptions → Except JsError String)
    (args : CreateWebhookArgs) :
    createWebhook none provider args
      = "Error: " ++ ("Error: " ++ "Network ID is not configured in environment variables")
    ∧ createWebhook (some "") provider args
      = "Error: " ++ ("Error: " ++ "Network ID is not configured in environment variables")
    ∧ agentConfigNetworkId none = "base-sepolia"
    ∧ agentConfigNetworkId (some "") = "base-sepolia"
    ∧ createWebhook (some "custom-net") (fun opts => Except.ok opts.networkId)
        ⟨"https://example.com/hook", "wallet_activity", ["0xA"], none⟩
      = "The webhook was successfully created: " ++ "custom-net" ++ "\n\n" := by
  refine ⟨rfl, rfl, rfl, rfl, rfl⟩

/-- C8: in chat mode the messages sent to the agent runtime are exactly the
lines typed before the first one that lowercases to `"exit"`, each wrapped
as a `HumanMessage` and sent once in order; the exit line itself (any letter
case) terminates the loop without any message being sent. -/
theorem chat_exit_no_message (f : HumanMessage → Except JsError (List Chunk))
    (lines : List String) (h : ∀ l, ∃ cs, f ⟨l⟩ = Except.ok cs) :
    (runChatMode f lines).sent
      = (lines.takeWhile (fun l => jsToLowerCase l != "exit")).map HumanMessage.mk := by
  induction lines with
  | nil => rfl
  | cons line rest ih =>
    by_cases hx : jsToLowerCase line = "exit"
    · rw [List.takeWhile_cons_of_neg (by simp [hx])]
      simp [runChatMode, hx]
    · obtain ⟨cs, hcs⟩ := h line
      rw [List.takeWhile_cons_of_pos (by simp [hx])]
      simp [runChatMode, hx, hcs, ih]

/-- Witness for C8: the upper-case `"EXIT"` line ends the session after one
sent message; the line after it is never sent. -/
theorem chat_exit_no_message_witness :
    (runChatMode (fun _ => Except.ok []) ["hello", "EXIT", "later"]).sent = [⟨"hello"⟩] :=
  (chat_exit_no_message (fun _ => Except.ok []) ["hello", "EXIT", "later"]
    (fun _ => ⟨[], rfl⟩)).trans (by decide)

/-- C9: in either mode a stream-consumption error reaches `process.exit(1)`
(a non-zero status): autonomous mode attempts no turn beyond the failing
one, and chat mode sends no message beyond the one whose stream failed,
regardless of what input or turns would have followed. -/
theorem stream_error_fatal
    (pre post : List (Except JsError (List Chunk))) (e : JsError)
    (hpre : ∀ t ∈ pre, ∃ cs, t = Except.ok cs)
    (f : HumanMessage → Except JsError (List Chunk))
    (lpre lpost : List String) (bad : String)
    (hlpre : ∀ l ∈ lpre, jsToLowerCase l ≠ "exit" ∧ ∃ cs, f ⟨l⟩ = Except.ok cs)
    (hbad : jsToLowerCase bad ≠ "exit") (hfbad : f ⟨bad⟩ = Except.error e) :
    ((runAutonomousMode (pre ++ Except.error e :: post)).exitCode = some 1
      ∧ (runAutonomousMode (pre ++ Except.error e :: post)).turns = pre.length + 1)
    ∧ ((runChatMode f (lpre ++ bad :: lpost)).exitCode = some 1
      ∧ (runChatMode f (lpre ++ bad :: lpost)).sent
          = lpre.map HumanMessage.mk ++ [⟨bad⟩]) := by
  constructor
  · clear hlpre hbad hfbad
    induction pre with
    | nil => exact ⟨rfl, rfl⟩
    | cons t ts ih =>
      obtain ⟨cs, rfl⟩ := hpre t (by simp)
      have ihh := ih (fun x hx => hpre x (by simp [hx]))
      refine ⟨ihh.1, ?_⟩
      show (runAutonomousMode (ts ++ Except.error e :: post)).turns + 1
          = ts.length + 1 + 1
      rw [ihh.2]
  · clear hpre
    induction lpre with
    | nil =>
      simp [runChatMode, hbad, hfbad]
    | cons l ls ih =>
      obtain ⟨hl, cs, hcs⟩ := hlpre l (by simp)
      have ihh := ih (fun x hx => hlpre x (by simp [hx]))
      simp only [List.cons_append, runChatMode, List.map_cons]
      rw [if_neg hl, hcs]
      exact ⟨ihh.1, by simp [ihh.2]⟩

/-- Witness for C9: a failing second turn in auto mode exits with status 1,
and a failing chat turn stops the session after that message. -/
theorem stream_error_fatal_witness :
    (runAutonomousMode
        [Except.ok [Chunk.agent "x"], Except.error ⟨"boom"⟩, Except.ok []]).exitCode = some 1
    ∧ (runChatMode
        (fun m => if m.content = "bad" then Except.error ⟨"boom"⟩ else Except.ok [])
        ["hello", "bad", "later"]).sent = [⟨"hello"⟩, ⟨"bad"⟩] := by
  have h := stream_error_fatal [Except.ok [Chunk.agent "x"]] [Except.ok []] ⟨"boom"⟩
      (by intro t ht
          simp only [List.mem_singleton] at ht
          exact ⟨[Chunk.agent "x"], ht⟩)
      (fun m => if m.content = "bad" then Except.error ⟨"boom"⟩ else Except.ok [])
      ["hello"] ["later"] "bad"
      (by intro l hl
          simp only [List.mem_singleton] at hl
          subst hl
          exact ⟨by decide, [], rfl⟩)
      (by decide) rfl
  exact ⟨h.1.1, h.2.2.trans (by decide)⟩

/-- Each conditional spread contributes nothing when its value is falsy. -/
theorem spreadStr_eq_nil (key : String) (o : Option String) (h : strTruthy o = false) :
    spreadStr key o = [] := by
  cases o with
  | none => rfl
  | some s =>
    simp only [strTruthy, bne_eq_false_iff_eq] at h
    simp [spreadStr, h]

/-- C10: `eventFilters` is optional in the tool's input schema, and an
omitted — or entirely unpopulated — filter set is not rejected by
`createWebhook`: the transfer branch builds `eventFilters` as the
single-element list holding one empty object and proceeds to submit the
request to the provider. -/
theorem eventFilters_optional_empty_object :
    (∀ (uri : String) (addrs : List String),
        CreateWebhookInput_parse ⟨uri, "erc20_transfer", addrs, none⟩
          = Except.ok ⟨uri, "erc20_transfer", addrs, none⟩)
    ∧ (∀ d : EventFiltersData, d.populatedAny = false → buildTransferFilter (some d) = [])
    ∧ buildTransferFilter none = []
    ∧ (∀ (uri : String) (addrs : List String),
        buildWebhookOptions "base-sepolia" uri "erc20_transfer" addrs none
          = Except.ok ⟨"base-sepolia", uri, "erc20_transfer", none, some [[]]⟩)
    ∧ (∀ (uri : String) (addrs : List String),
        createWebhook (some "base-sepolia") (fun _ => Except.ok "W")
            ⟨uri, "erc20_transfer", addrs, none⟩
          = "The webhook was successfully created: " ++ "W" ++ "\n\n") := by
  refine ⟨fun uri addrs => rfl, ?_, rfl, fun uri addrs => rfl, fun uri addrs => rfl⟩
  intro d hd
  simp only [EventFiltersData.populatedAny, Bool.or_eq_false_iff] at hd
  show spreadStr "contract_address" d.contract_address
      ++ spreadStr "from_address" d.from_address
      ++ spreadStr "to_address" d.to_address = []
  rw [spreadStr_eq_nil _ _ hd.2, spreadStr_eq_nil _ _ hd.1.1.2, spreadStr_eq_nil _ _ hd.1.2]
  rfl

/-- Witness for C10: a filter whose only key holds the empty string builds
the empty object, and an omitted filter set still submits successfully. -/
theorem eventFilters_optional_empty_object_witness :
    buildTransferFilter (some ⟨none, none, none, some ""⟩) = []
    ∧ createWebhook (some "base-sepolia") (fun _ => Except.ok "W")
        ⟨"https://example.com/hook", "erc20_transfer", ["0xA"], none⟩
      = "The webhook was successfully created: " ++ "W" ++ "\n\n" :=
  ⟨eventFilters_optional_empty_object.2.1 ⟨none, none, none, some ""⟩ rfl,
   eventFilters_optional_empty_object.2.2.2.2 "https://example.com/hook" ["0xA"]⟩
